import Mathlib

/-!
Shallow embedding of the session controller in `src/src/App.js`
(speech-to-text front end): the bounded history collection, the
upload/validation path, the cancellable upload exchange, the
blob-resource revocation behaviour and the localStorage persistence
of the history list.

State fields mirror the React state hooks (lines 4-13 of App.js);
each operation mirrors one handler function of the source.  Side
effects that matter to the claims (URL.revokeObjectURL calls) are
returned explicitly as lists of revoked locator strings.
-/

namespace SpeechApp

/-- A transcription record as built at App.js lines 165-173. -/
structure Record where
  id : Nat
  timestamp : String
  text : String
  filename : String
  audioUrl : String
  wordCount : Nat
  charCount : Nat
deriving DecidableEq, Repr

/-- The ephemeral session state: the React state hooks of App.js lines 4-13
that the claims are about. -/
structure AppState where
  transcript : String
  error : String
  success : Bool
  audioUrl : String
  history : List Record
  selectedHistory : Option Nat
  loading : Bool
  uploadController : Bool
deriving DecidableEq, Repr

/-- Initial state: all hooks start empty / false / `[]` / null. -/
def initialState : AppState :=
  { transcript := "", error := "", success := false, audioUrl := "",
    history := [], selectedHistory := none, loading := false,
    uploadController := false }

/-- Embeds `transcription.split(/\s+/).filter(word => word.length > 0).length`
(App.js line 171). -/
def countWords (text : String) : Nat :=
  ((text.split Char.isWhitespace).filter (fun w => w.length > 0)).length

/-- The history item constructed on a successful response
(App.js lines 165-173); `now` is the `Date.now()` reading and
`timestamp` the `new Date().toLocaleString()` reading at that moment. -/
def mkHistoryItem (now : Nat) (timestamp transcription filename audioUrl : String) :
    Record :=
  { id := now, timestamp := timestamp, text := transcription,
    filename := filename, audioUrl := audioUrl,
    wordCount := countWords transcription,
    charCount := transcription.length }

/-- Embeds `setHistory(prev => [historyItem, ...prev].slice(0, 10))` (App.js line 174). -/
def insertHistory (item : Record) (h : List Record) : List Record :=
  (item :: h).take 10

/-- Iterated insertion, oldest first in the argument list. -/
def insertAll (items : List Record) (h : List Record) : List Record :=
  items.foldl (fun acc it => insertHistory it acc) h

/-- An upload candidate from the file input: its declared MIME type,
its byte size and its name (App.js line 113). -/
structure FileCandidate where
  mimeType : String
  size : Nat
  name : String
deriving DecidableEq, Repr

/-- Character-list prefix test. -/
def charsPrefix : List Char → List Char → Bool
  | [], _ => true
  | _ :: _, [] => false
  | c :: cs, d :: ds => c == d && charsPrefix cs ds

/-- JavaScript `s.startsWith(p)`: `p` is an initial segment of `s`. -/
def strStartsWith (s p : String) : Bool :=
  charsPrefix p.data s.data

/-- What `handleFileUpload` does after its synchronous part: nothing
(no file), a validation rejection, or handing the candidate and the
freshly created object URL to `sendAudioToBackend`. -/
inductive UploadStep where
  | noAction
  | rejectedType
  | rejectedSize
  | send (file : FileCandidate) (url : String)
deriving DecidableEq, Repr

/-- Object URLs created by `URL.createObjectURL` during the step. -/
def stepCreatedUrls : UploadStep → List String
  | UploadStep.send _ url => [url]
  | _ => []

/-- Network requests issued as a consequence of the step
(`send` proceeds to the `fetch` in `sendAudioToBackend`). -/
def stepNetworkCalls : UploadStep → Nat
  | UploadStep.send _ _ => 1
  | _ => 0

/-- Embeds `handleFileUpload` (App.js lines 112-133).  `file` is
`event.target.files[0]` (`none` when no file is selected); `newUrl` is
the URL that `URL.createObjectURL(file)` would return.  The type check
runs first, then the size check; only a candidate passing both clears
error/success, gets an object URL and is sent to the backend. -/
def handleFileUpload (file : Option FileCandidate) (newUrl : String)
    (s : AppState) : AppState × UploadStep :=
  match file with
  | none => (s, UploadStep.noAction)
  | some f =>
    if ¬ (strStartsWith f.mimeType "audio/") then
      ({ s with error := "Please select a valid audio file" }, UploadStep.rejectedType)
    else if f.size > 10 * 1024 * 1024 then
      ({ s with error := "File size must be less than 10MB" }, UploadStep.rejectedSize)
    else
      ({ s with error := "", success := false, audioUrl := newUrl },
       UploadStep.send f newUrl)

/-- The synchronous head of `sendAudioToBackend` (App.js lines 137-141):
`setLoading(true); setTranscript(''); setUploadController(controller)`. -/
def startUpload (s : AppState) : AppState :=
  { s with loading := true, transcript := "", uploadController := true }

/-- How one `fetch` to the backend settles, as observed by the `try`
block of `sendAudioToBackend`: a parsed success body (the optional
`transcription` and `text` JSON fields), a non-ok HTTP status, a
network-level rejection carrying a message, or an `AbortError`. -/
inductive FetchResult where
  | success (transcription text : Option String)
  | serverError (status : Nat)
  | networkError (msg : String)
  | aborted
deriving DecidableEq, Repr

/-- The `AbortController` semantics of the browser `fetch`: once `abort()`
has been signalled before the response is observed, the promise rejects
with `AbortError` no matter how the underlying exchange would have
resolved. -/
def resolveFetch (cancelledBeforeResponse : Bool) (underlying : FetchResult) :
    FetchResult :=
  if cancelledBeforeResponse then FetchResult.aborted else underlying

/-- Embeds `data.transcription || data.text || 'No transcription available'`
(App.js line 159).  JavaScript `||` falls through on a falsy operand;
for string fields the falsy values are absence (`undefined`) and the
empty string. -/
def extractTranscription (transcription text : Option String) : String :=
  match transcription with
  | some t => if t = "" then
      (match text with
       | some u => if u = "" then "No transcription available" else u
       | none => "No transcription available")
    else t
  | none =>
    match text with
    | some u => if u = "" then "No transcription available" else u
    | none => "No transcription available"

/-- The message of ``throw new Error(`Server error: ${response.status}`)`` (App.js line 155). -/
def serverErrorMsg (status : Nat) : String :=
  "Server error: " ++ toString status

/-- The response/continuation part of `sendAudioToBackend`
(App.js lines 154-186), including the `catch` and `finally` clauses.
Returns the next state together with the list of blob URLs revoked in
this step: the source revokes nothing here (there is no
`URL.revokeObjectURL` anywhere in `sendAudioToBackend`), so that list
is always empty. -/
def processResponse (s : AppState) (filename audioUrl : String) (now : Nat)
    (timestamp : String) (res : FetchResult) : AppState × List String :=
  match res with
  | FetchResult.success tr tx =>
    let transcription := extractTranscription tr tx
    let item := mkHistoryItem now timestamp transcription filename audioUrl
    ({ s with transcript := transcription, success := true,
              history := insertHistory item s.history,
              loading := false, uploadController := false }, [])
  | FetchResult.serverError status =>
    ({ s with error := serverErrorMsg status,
              loading := false, uploadController := false }, [])
  | FetchResult.networkError msg =>
    ({ s with error := if msg = "" then "Failed to transcribe audio" else msg,
              loading := false, uploadController := false }, [])
  | FetchResult.aborted =>
    ({ s with error := "Upload cancelled",
              loading := false, uploadController := false }, [])

/-- Embeds `cancelUpload` (App.js lines 190-196): only acts when a controller
is in flight. -/
def cancelUpload (s : AppState) : AppState :=
  if s.uploadController then
    { s with uploadController := false, loading := false }
  else s

/-- Embeds `clearCurrent` (App.js lines 219-227): resets the four session
fields, and revokes the previously displayed object URL whenever it is
non-empty (the source checks only `if (audioUrl)`, nothing else).
Returns the next state and the revoked URLs. -/
def clearCurrent (s : AppState) : AppState × List String :=
  ({ s with transcript := "", audioUrl := "", error := "", success := false },
   if s.audioUrl = "" then [] else [s.audioUrl])

/-- Embeds `clearHistory` (App.js lines 230-240): revokes every history blob
URL, empties the collection, removes the persisted value and clears the
selection.  Returns the next state and the revoked URLs. -/
def clearHistory (s : AppState) : AppState × List String :=
  ({ s with history := [], selectedHistory := none },
   (s.history.filter (fun item => strStartsWith item.audioUrl "blob:")).map
     (fun item => item.audioUrl))

/-- Embeds `loadFromHistory` (App.js lines 243-249). -/
def loadFromHistory (item : Record) (s : AppState) : AppState :=
  { s with transcript := item.text, audioUrl := item.audioUrl,
           selectedHistory := some item.id, error := "", success := false }

/-- The synchronous reset at the top of `startRecording`
(App.js lines 61-64): `setError(''); setSuccess(false); setTranscript('');
setAudioUrl('')`. -/
def startRecordingReset (s : AppState) : AppState :=
  { s with error := "", success := false, transcript := "", audioUrl := "" }

/-- The render guard for the success banner (App.js line 487):
`success && !error && !loading`. -/
def showsSuccess (s : AppState) : Bool :=
  s.success && (s.error = "") && (! s.loading)

/-!
Persistence (App.js lines 21-37): the history list is written to
`localStorage` as one JSON string via `JSON.stringify`, and read back on
mount with `JSON.parse` inside a `try`/`catch`.  We model the stored
value at the JSON abstract-syntax level: `JSON.parse ∘ JSON.stringify`
is the identity on JSON values, so the string layer contributes nothing
beyond "parses" / "fails to parse", which `StoredValue` distinguishes.
-/

/-- JSON values, as produced by `JSON.parse`. -/
inductive Json where
  | null
  | jbool (b : Bool)
  | jnum (n : Int)
  | jstr (s : String)
  | jarr (xs : List Json)
  | jobj (fields : List (String × Json))
deriving Repr

/-- First-match field lookup on a JSON object. -/
def getField : List (String × Json) → String → Option Json
  | [], _ => none
  | (k, v) :: rest, key => if k = key then some v else getField rest key

/-- Read a JSON string field. -/
def asStr : Option Json → Option String
  | some (Json.jstr s) => some s
  | _ => none

/-- Read a JSON non-negative integer field. -/
def asNat : Option Json → Option Nat
  | some (Json.jnum n) => if 0 ≤ n then some n.toNat else none
  | _ => none

/-- Embeds `JSON.stringify` of one history item, at the AST level: the plain
object with the seven fields of App.js lines 165-173. -/
def encodeRecord (r : Record) : Json :=
  Json.jobj [("id", Json.jnum r.id), ("timestamp", Json.jstr r.timestamp),
             ("text", Json.jstr r.text), ("filename", Json.jstr r.filename),
             ("audioUrl", Json.jstr r.audioUrl),
             ("wordCount", Json.jnum r.wordCount),
             ("charCount", Json.jnum r.charCount)]

/-- Embeds `JSON.stringify(history)` at the AST level: the array of encoded
records, in order. -/
def encodeHistory (h : List Record) : Json :=
  Json.jarr (h.map encodeRecord)

/-- Read back one history item, field for field; `none` when the JSON
value is not a well-formed record object. -/
def decodeRecord (j : Json) : Option Record :=
  match j with
  | Json.jobj fs =>
    match asNat (getField fs "id"), asStr (getField fs "timestamp"),
          asStr (getField fs "text"), asStr (getField fs "filename"),
          asStr (getField fs "audioUrl"), asNat (getField fs "wordCount"),
          asNat (getField fs "charCount") with
    | some i, some ts, some tx, some fn, some au, some wc, some cc =>
      some { id := i, timestamp := ts, text := tx, filename := fn,
             audioUrl := au, wordCount := wc, charCount := cc }
    | _, _, _, _, _, _, _ => none
  | _ => none

/-- Decode a list of JSON values as records; `none` if any fails. -/
def decodeRecordList : List Json → Option (List Record)
  | [] => some []
  | j :: rest =>
    match decodeRecord j, decodeRecordList rest with
    | some r, some rs => some (r :: rs)
    | _, _ => none

/-- Decode a stored JSON value as the ordered record list; `none` when
the value is not an array of well-formed records (a malformed
serialization). -/
def decodeHistory (j : Json) : Option (List Record) :=
  match j with
  | Json.jarr xs => decodeRecordList xs
  | _ => none

/-- The durable store's content for the history key, as seen through
`JSON.parse`: absent, a string `JSON.parse` rejects, or a string
parsing to the JSON value `j`. -/
inductive StoredValue where
  | absent
  | corrupt
  | parsed (j : Json)

/-- The mount effect (App.js lines 21-30): when the key is absent the
initial `[]` stays; when `JSON.parse` throws, the error is caught and
logged and the initial `[]` stays; when it parses, `setHistory`
installs the parsed value verbatim — whatever JSON value it is. -/
def loadHistory (sv : StoredValue) : Json :=
  match sv with
  | StoredValue.absent => Json.jarr []
  | StoredValue.corrupt => Json.jarr []
  | StoredValue.parsed j => j

/-!  Concrete scenario states used by counterexamples and witnesses. -/

/-- A well-formed audio upload candidate. -/
def fileA : FileCandidate :=
  { mimeType := "audio/webm", size := 1000, name := "a.webm" }

/-- A candidate with a non-audio MIME type. -/
def filePng : FileCandidate :=
  { mimeType := "image/png", size := 5, name := "p.png" }

/-- The state after one complete successful upload of `fileA` from the
initial state: validation, `startUpload`, then a success response.  Its
current `audioUrl` is `"blob:u1"`, and its single history record stores
that same URL (the source stores the very URL it displays, App.js
lines 129-131 and 170). -/
def sAfterUploadA : AppState :=
  (processResponse (startUpload (handleFileUpload (some fileA) "blob:u1" initialState).1)
    "a.webm" "blob:u1" 1 "ts1" (FetchResult.success (some "hello") none)).1

/-- A concrete record, with URL `"u" ++ toString i`. -/
def fileRecord (i : Nat) : Record :=
  mkHistoryItem i "t" "x" "f" ("u" ++ toString i)

/-- A history of ten records with pairwise distinct blob URLs, built by
ten inserts from the empty collection. -/
def cexHistory : List Record :=
  insertAll ((List.range 10).map fileRecord) []

/-- One more successful upload on top of a full (ten-record) history:
the insert must evict the tail record (URL `"u0"`). -/
def cexInsertC2 : AppState × List String :=
  processResponse { initialState with history := cexHistory }
    "f11" "u10" 10 "t" (FetchResult.success (some "hi") none)

/-- Two successful uploads whose `Date.now()` readings are the same
millisecond (both 5). -/
def sTwoSameMs : AppState :=
  (processResponse
    (processResponse initialState "a.webm" "u1" 5 "t1"
      (FetchResult.success (some "hello") none)).1
    "b.webm" "u2" 5 "t2" (FetchResult.success (some "world") none)).1

/-!  Helper lemmas. -/

theorem insertHistory_length_le (item : Record) (h : List Record) :
    (insertHistory item h).length ≤ 10 :=
  List.length_take_le 10 _

theorem insertAll_length_le (items : List Record) (h : List Record)
    (hh : h.length ≤ 10) : (insertAll items h).length ≤ 10 := by
  induction items generalizing h with
  | nil => simpa [insertAll] using hh
  | cons it rest ih =>
    have : insertAll (it :: rest) h = insertAll rest (insertHistory it h) := rfl
    rw [this]
    exact ih _ (insertHistory_length_le it h)

theorem serverErrorMsg_ne_cancelled (status : Nat) :
    serverErrorMsg status ≠ "Upload cancelled" := by
  intro h
  have h1 : ("Server error: " ++ toString status).data = "Upload cancelled".data :=
    congrArg String.data h
  rw [String.data_append] at h1
  have h2 : "Server error: ".data = 'S' :: "erver error: ".data := rfl
  have h3 : "Upload cancelled".data = 'U' :: "pload cancelled".data := rfl
  rw [h2, h3, List.cons_append] at h1
  exact absurd (List.cons.inj h1).1 (by decide)

/-!  Claim theorems. -/

/-- C1: for every sequence of inserts starting from the empty history,
the collection holds at most 10 records; every insert puts the new
record at index 0 (newest first); and once the size is 10, a further
insert keeps the first 9 old records and drops exactly the tail record,
leaving the size at 10. -/
theorem c1_history_bounded_newest_first :
    (∀ items : List Record, (insertAll items []).length ≤ 10) ∧
    (∀ (item : Record) (h : List Record), (insertHistory item h).head? = some item) ∧
    (∀ (item : Record) (h : List Record), h.length = 10 →
      insertHistory item h = item :: h.take 9 ∧ (insertHistory item h).length = 10) := by
  refine ⟨fun items => insertAll_length_le items [] (by simp), fun item h => rfl,
    fun item h hlen => ⟨rfl, ?_⟩⟩
  simp [insertHistory, hlen]

/-- Witness for C1 at concrete inputs: a single insert, and an insert
into a concrete full history of ten records. -/
theorem c1_witness :
    (insertAll [fileRecord 0] []).length ≤ 10 ∧
    (insertHistory (fileRecord 0) []).head? = some (fileRecord 0) ∧
    (cexHistory.length = 10 ∧
      insertHistory (fileRecord 0) cexHistory = fileRecord 0 :: cexHistory.take 9) :=
  ⟨c1_history_bounded_newest_first.1 [fileRecord 0],
   c1_history_bounded_newest_first.2.1 (fileRecord 0) [],
   by decide,
   (c1_history_bounded_newest_first.2.2 (fileRecord 0) cexHistory (by decide)).1⟩

/-- C10: when no file is selected, `handleFileUpload` returns the state
unchanged in every field, creates no object URL and issues no network
request. -/
theorem c10_no_file_noop (url : String) (s : AppState) :
    handleFileUpload none url s = (s, UploadStep.noAction) ∧
    stepCreatedUrls (handleFileUpload none url s).2 = [] ∧
    stepNetworkCalls (handleFileUpload none url s).2 = 0 :=
  ⟨rfl, rfl, rfl⟩

/-- C2 counterexample: inserting an eleventh record into a full history
evicts the tail record (the one with URL `"u0"`), yet the step's
revocation list is empty — the evicted record's BlobResource is NOT
revoked, contradicting the claim that exactly the evicted records'
resources are revoked. -/
theorem c2_counterexample :
    cexHistory.any (fun r => r.audioUrl == "u0") = true ∧
    (cexInsertC2.1.history.any (fun r => r.audioUrl == "u0")) = false ∧
    cexInsertC2.2 = [] := by
  decide

/-- C2 amended: when an insert causes the history to exceed 10 entries,
records are removed from the tail by truncation (`take 10` of the
prepended list), but the step revokes no BlobResource at all: neither
the evicted records' resources (they leak) nor — trivially — any
remaining record's resource. -/
theorem c2_amended (s : AppState) (fn url : String) (now : Nat) (ts : String)
    (res : FetchResult) :
    (processResponse s fn url now ts res).2 = [] ∧
    (∀ tr tx, res = FetchResult.success tr tx →
      (processResponse s fn url now ts res).1.history =
        (mkHistoryItem now ts (extractTranscription tr tx) fn url :: s.history).take 10) := by
  constructor
  · cases res <;> rfl
  · intro tr tx hres
    subst hres
    rfl

/-- Witness for C2 amended, at the concrete full-history insert. -/
theorem c2_amended_witness :
    cexInsertC2.2 = [] ∧
    cexInsertC2.1.history =
      (mkHistoryItem 10 "t" (extractTranscription (some "hi") none) "f11" "u10"
        :: cexHistory).take 10 :=
  ⟨(c2_amended { initialState with history := cexHistory } "f11" "u10" 10 "t"
      (FetchResult.success (some "hi") none)).1,
   (c2_amended { initialState with history := cexHistory } "f11" "u10" 10 "t"
      (FetchResult.success (some "hi") none)).2 (some "hi") none rfl⟩

/-- C3: if `cancel()` is invoked while an upload is in flight, before
the response is observed, the fetch settles as `AbortError` no matter
how the underlying exchange would have resolved; the session surfaces
the dedicated `"Upload cancelled"` error (distinct from every server
error message), the history is unchanged (no record produced), and the
loading/in-flight markers are cleared. -/
theorem c3_cancel_no_record (s : AppState) (fn url : String) (now : Nat)
    (ts : String) (underlying : FetchResult) (hc : s.uploadController = true) :
    ((processResponse (cancelUpload s) fn url now ts
        (resolveFetch true underlying)).1.error = "Upload cancelled") ∧
    ((processResponse (cancelUpload s) fn url now ts
        (resolveFetch true underlying)).1.history = s.history) ∧
    ((processResponse (cancelUpload s) fn url now ts
        (resolveFetch true underlying)).1.loading = false) ∧
    ((processResponse (cancelUpload s) fn url now ts
        (resolveFetch true underlying)).1.uploadController = false) ∧
    (∀ status : Nat, serverErrorMsg status ≠ "Upload cancelled") := by
  refine ⟨?_, ?_, ?_, ?_, serverErrorMsg_ne_cancelled⟩ <;>
    simp [processResponse, resolveFetch, cancelUpload, hc]

/-- Witness for C3: a concrete in-flight upload cancelled before a
response that would have been a success. -/
theorem c3_witness :
    (startUpload initialState).uploadController = true ∧
    ((processResponse (cancelUpload (startUpload initialState)) "f" "u" 1 "t"
        (resolveFetch true (FetchResult.success (some "ok") none))).1.error
      = "Upload cancelled") ∧
    ((processResponse (cancelUpload (startUpload initialState)) "f" "u" 1 "t"
        (resolveFetch true (FetchResult.success (some "ok") none))).1.history
      = (startUpload initialState).history) :=
  ⟨rfl,
   (c3_cancel_no_record (startUpload initialState) "f" "u" 1 "t"
     (FetchResult.success (some "ok") none) rfl).1,
   (c3_cancel_no_record (startUpload initialState) "f" "u" 1 "t"
     (FetchResult.success (some "ok") none) rfl).2.1⟩

/-- C4 counterexample: after one successful upload (a reachable state),
the current `audioUrl` `"blob:u1"` is also stored in the history record
that the upload just inserted; `clearCurrent` nonetheless revokes it —
the source checks only `if (audioUrl)` and never consults history — so
a resource still owned by a stored history record IS revoked,
contradicting the claim. -/
theorem c4_counterexample :
    "blob:u1" ∈ (clearCurrent sAfterUploadA).2 ∧
    ((clearCurrent sAfterUploadA).1.history.any
      (fun r => r.audioUrl == "blob:u1")) = true := by
  decide

/-- C4 amended: `clearCurrent` resets the transcript, audio, error and
success fields and leaves history untouched, but it revokes the
currently displayed BlobResource whenever one is set (non-empty URL),
regardless of whether a stored history record also owns it. -/
theorem c4_amended (s : AppState) :
    (clearCurrent s).1.transcript = "" ∧ (clearCurrent s).1.audioUrl = "" ∧
    (clearCurrent s).1.error = "" ∧ (clearCurrent s).1.success = false ∧
    (clearCurrent s).1.history = s.history ∧
    (clearCurrent s).2 = (if s.audioUrl = "" then [] else [s.audioUrl]) :=
  ⟨rfl, rfl, rfl, rfl, rfl, rfl⟩

/-- C5: the file-upload validator rejects a candidate whose declared
MIME type does not start with `audio/` (setting the invalid-type error,
creating no object URL and issuing no network request); rejects an
audio candidate larger than 10 × 1024 × 1024 bytes with the oversize
error; and lets an audio candidate of exactly 10 × 1024 × 1024 bytes
through to the upload. -/
theorem c5_validation (f : FileCandidate) (url : String) (s : AppState) :
    (strStartsWith f.mimeType "audio/" = false →
      handleFileUpload (some f) url s =
        ({ s with error := "Please select a valid audio file" },
         UploadStep.rejectedType) ∧
      stepCreatedUrls (handleFileUpload (some f) url s).2 = [] ∧
      stepNetworkCalls (handleFileUpload (some f) url s).2 = 0) ∧
    (strStartsWith f.mimeType "audio/" = true → f.size > 10 * 1024 * 1024 →
      handleFileUpload (some f) url s =
        ({ s with error := "File size must be less than 10MB" },
         UploadStep.rejectedSize) ∧
      stepCreatedUrls (handleFileUpload (some f) url s).2 = [] ∧
      stepNetworkCalls (handleFileUpload (some f) url s).2 = 0) ∧
    (strStartsWith f.mimeType "audio/" = true → f.size = 10 * 1024 * 1024 →
      handleFileUpload (some f) url s =
        ({ s with error := "", success := false, audioUrl := url },
         UploadStep.send f url)) := by
  refine ⟨fun ht => ?_, fun ht hsz => ?_, fun ht hsz => ?_⟩
  · have h : handleFileUpload (some f) url s =
        ({ s with error := "Please select a valid audio file" },
         UploadStep.rejectedType) := by
      simp [handleFileUpload, ht]
    exact ⟨h, by rw [h]; rfl, by rw [h]; rfl⟩
  · have h : handleFileUpload (some f) url s =
        ({ s with error := "File size must be less than 10MB" },
         UploadStep.rejectedSize) := by
      simp [handleFileUpload, ht, hsz]
    exact ⟨h, by rw [h]; rfl, by rw [h]; rfl⟩
  · have hno : ¬ (f.size > 10 * 1024 * 1024) := by omega
    simp [handleFileUpload, ht, hno]

/-- An audio candidate one byte over the size limit. -/
def fileBig : FileCandidate :=
  { mimeType := "audio/wav", size := 10 * 1024 * 1024 + 1, name := "b.wav" }

/-- An audio candidate of exactly the size limit. -/
def fileMax : FileCandidate :=
  { mimeType := "audio/wav", size := 10 * 1024 * 1024, name := "c.wav" }

/-- Witness for C5: a PNG candidate, an audio candidate one byte over
the limit, and an audio candidate of exactly the limit. -/
theorem c5_witness :
    (strStartsWith filePng.mimeType "audio/" = false ∧
      handleFileUpload (some filePng) "u" initialState =
        ({ initialState with error := "Please select a valid audio file" },
         UploadStep.rejectedType)) ∧
    (strStartsWith fileBig.mimeType "audio/" = true ∧
      fileBig.size > 10 * 1024 * 1024 ∧
      handleFileUpload (some fileBig) "u" initialState =
        ({ initialState with error := "File size must be less than 10MB" },
         UploadStep.rejectedSize)) ∧
    (strStartsWith fileMax.mimeType "audio/" = true ∧
      fileMax.size = 10 * 1024 * 1024 ∧
      handleFileUpload (some fileMax) "u" initialState =
        ({ initialState with error := "", success := false, audioUrl := "u" },
         UploadStep.send fileMax "u")) :=
  ⟨⟨by decide, ((c5_validation filePng "u" initialState).1 (by decide)).1⟩,
   ⟨by decide, by decide,
    ((c5_validation fileBig "u" initialState).2.1 (by decide) (by decide)).1⟩,
   ⟨by decide, by decide,
    (c5_validation fileMax "u" initialState).2.2 (by decide) (by decide)⟩⟩

/-- C6 counterexample: a success body whose `transcription` field is
present but holds the empty string.  The claim requires the transcript
to equal that field's value `""`; the source's `||` chain skips the
falsy empty string and yields `"hi"` from the `text` field instead. -/
theorem c6_counterexample :
    (processResponse initialState "f" "u" 1 "t"
        (FetchResult.success (some "") (some "hi"))).1.transcript = "hi" ∧
    ¬ ((processResponse initialState "f" "u" 1 "t"
        (FetchResult.success (some "") (some "hi"))).1.transcript = "") := by
  decide

/-- C6 amended: the transcript of a success response equals the
`transcription` field when it is present AND non-empty; otherwise the
`text` field when it is present and non-empty; otherwise the literal
`"No transcription available"` (JavaScript `||` treats a present empty
string like an absent field). -/
theorem c6_amended (tr tx : Option String) :
    (∀ (s : AppState) (fn url : String) (now : Nat) (ts : String),
      (processResponse s fn url now ts (FetchResult.success tr tx)).1.transcript =
        extractTranscription tr tx) ∧
    (∀ t, tr = some t → t ≠ "" → extractTranscription tr tx = t) ∧
    ((tr = none ∨ tr = some "") → ∀ u, tx = some u → u ≠ "" →
      extractTranscription tr tx = u) ∧
    ((tr = none ∨ tr = some "") → (tx = none ∨ tx = some "") →
      extractTranscription tr tx = "No transcription available") := by
  refine ⟨fun s fn url now ts => rfl, ?_, ?_, ?_⟩
  · intro t htr hne
    subst htr
    simp [extractTranscription, hne]
  · rintro (htr | htr) u htx hne <;> subst htr <;> subst htx <;>
      simp [extractTranscription, hne]
  · rintro (htr | htr) (htx | htx) <;> subst htr <;> subst htx <;>
      simp [extractTranscription]

/-- Witness for C6 amended at concrete bodies: `{"transcription":"hi"}`,
`{"transcription":"","text":"yo"}` and `{}`. -/
theorem c6_witness :
    ("hi" ≠ "" ∧ extractTranscription (some "hi") none = "hi") ∧
    ("yo" ≠ "" ∧ extractTranscription (some "") (some "yo") = "yo") ∧
    extractTranscription none none = "No transcription available" :=
  ⟨⟨by decide, (c6_amended (some "hi") none).2.1 "hi" rfl (by decide)⟩,
   ⟨by decide,
    (c6_amended (some "") (some "yo")).2.2.1 (Or.inr rfl) "yo" rfl (by decide)⟩,
   (c6_amended none none).2.2.2 (Or.inl rfl) (Or.inl rfl)⟩

theorem decodeRecord_encodeRecord (r : Record) :
    decodeRecord (encodeRecord r) = some r := by
  simp [decodeRecord, encodeRecord, getField, asStr, asNat]

theorem decodeRecordList_map (l : List Record) :
    decodeRecordList (l.map encodeRecord) = some l := by
  induction l with
  | nil => rfl
  | cons r rest ih => simp [decodeRecordList, decodeRecord_encodeRecord, ih]

/-- C7 counterexample: the stored string `"42"` is malformed as a
history serialization (it decodes to no record list), yet `JSON.parse`
accepts it, so the mount effect's `try`/`catch` does not fire and
`setHistory` installs the number 42 verbatim — the loaded collection is
not the empty record list the claim requires. -/
theorem c7_counterexample :
    decodeHistory (Json.jnum 42) = none ∧
    loadHistory (StoredValue.parsed (Json.jnum 42)) = Json.jnum 42 ∧
    decodeHistory (loadHistory (StoredValue.parsed (Json.jnum 42))) ≠ some [] ∧
    loadHistory (StoredValue.parsed (Json.jnum 42)) ≠ encodeHistory [] := by
  refine ⟨rfl, rfl, ?_, ?_⟩ <;> simp [loadHistory, decodeHistory, encodeHistory]

/-- C7 amended: serializing a valid history and loading it back
reproduces the same ordered record list field-for-field; an absent
stored value, or one that `JSON.parse` rejects, yields the empty
collection without raising (the parse error is caught).  (A stored
value that parses as JSON without encoding a record list is installed
verbatim, not replaced by an empty collection.) -/
theorem c7_roundtrip (h : List Record) :
    decodeHistory (loadHistory (StoredValue.parsed (encodeHistory h))) = some h ∧
    loadHistory StoredValue.corrupt = encodeHistory [] ∧
    loadHistory StoredValue.absent = encodeHistory [] := by
  refine ⟨?_, rfl, rfl⟩
  simp [loadHistory, decodeHistory, encodeHistory, decodeRecordList_map]

/-- C8 counterexample: after a successful upload (success flag set), a
rejected upload candidate (`image/png`) sets the error message without
clearing the success flag — a reachable state where error and success
are both set, contradicting mutual exclusion. -/
theorem c8_counterexample :
    sAfterUploadA.success = true ∧ sAfterUploadA.error = "" ∧
    (handleFileUpload (some filePng) "blob:u2" sAfterUploadA).1.success = true ∧
    (handleFileUpload (some filePng) "blob:u2" sAfterUploadA).1.error ≠ "" := by
  decide

/-- C8 amended: a new recording attempt clears both error and success
before proceeding, and so does an upload attempt whose candidate passes
validation; a validation-rejected upload, however, sets the error while
leaving a previous success flag set, so the two are only mutually
exclusive in the rendered view, where the success banner is suppressed
whenever an error is present. -/
theorem c8_amended (s : AppState) (f : FileCandidate) (url : String) :
    ((startRecordingReset s).error = "" ∧ (startRecordingReset s).success = false) ∧
    (strStartsWith f.mimeType "audio/" = true → f.size ≤ 10 * 1024 * 1024 →
      (handleFileUpload (some f) url s).1.error = "" ∧
      (handleFileUpload (some f) url s).1.success = false) ∧
    (s.error ≠ "" → showsSuccess s = false) := by
  refine ⟨⟨rfl, rfl⟩, fun ht hsz => ?_, fun he => ?_⟩
  · have hno : ¬ (f.size > 10 * 1024 * 1024) := by omega
    simp [handleFileUpload, ht, hno]
  · simp [showsSuccess, he]

/-- Witness for C8 amended: the reset of a state carrying an error and
a stale success flag, a valid candidate's upload from it, and the
render guard on it. -/
theorem c8_witness :
    ((startRecordingReset { initialState with error := "boom", success := true }).error = ""
      ∧ (startRecordingReset { initialState with error := "boom", success := true }).success = false) ∧
    (strStartsWith fileA.mimeType "audio/" = true ∧ fileA.size ≤ 10 * 1024 * 1024 ∧
      (handleFileUpload (some fileA) "u"
        { initialState with error := "boom", success := true }).1.error = "" ∧
      (handleFileUpload (some fileA) "u"
        { initialState with error := "boom", success := true }).1.success = false) ∧
    (({ initialState with error := "boom", success := true } : AppState).error ≠ "" ∧
      showsSuccess { initialState with error := "boom", success := true } = false) :=
  ⟨(c8_amended { initialState with error := "boom", success := true } fileA "u").1,
   ⟨by decide, by decide,
    (c8_amended { initialState with error := "boom", success := true } fileA "u").2.1
      (by decide) (by decide)⟩,
   ⟨by decide,
    (c8_amended { initialState with error := "boom", success := true } fileA "u").2.2
      (by decide)⟩⟩

/-- A run of successful inserts whose `Date.now()` readings are the
given list of times (record contents held fixed; they do not enter the
id). -/
def runInserts (times : List Nat) (h : List Record) : List Record :=
  times.foldl (fun acc t => insertHistory (mkHistoryItem t "t" "x" "f" "u") acc) h

theorem runInserts_sorted (times : List Nat) (h : List Record)
    (hs : h.Pairwise (fun a b => b.id < a.id))
    (hb : ∀ t ∈ times, ∀ r ∈ h, r.id < t)
    (hmono : times.Pairwise (· < ·)) :
    (runInserts times h).Pairwise (fun a b => b.id < a.id) := by
  induction times generalizing h with
  | nil => simpa [runInserts] using hs
  | cons t rest ih =>
    rw [List.pairwise_cons] at hmono
    have hstep : runInserts (t :: rest) h =
        runInserts rest (insertHistory (mkHistoryItem t "t" "x" "f" "u") h) := rfl
    rw [hstep]
    have hmem : ∀ r ∈ insertHistory (mkHistoryItem t "t" "x" "f" "u") h,
        r ∈ mkHistoryItem t "t" "x" "f" "u" :: h :=
      fun r hr => (List.take_sublist 10 _).mem hr
    refine ih _ (List.Pairwise.sublist (List.take_sublist 10 _) ?_) ?_ hmono.2
    · rw [List.pairwise_cons]
      exact ⟨fun r hr => hb t (List.mem_cons_self t rest) r hr, hs⟩
    · intro t' ht' r hr
      rcases List.mem_cons.mp (hmem r hr) with hrt | hrh
      · rw [hrt]
        exact hmono.1 t' ht'
      · exact Nat.lt_trans (hb t (List.mem_cons_self t rest) r hrh) (hmono.1 t' ht')

/-- C9 counterexample: two successful uploads whose `Date.now()`
readings fall in the same millisecond (both 5) insert two distinct
records (different filenames, texts and URLs) with the SAME id 5 — ids
are neither unique nor strictly increasing; the code derives the id
from the clock with no tie-breaking. -/
theorem c9_counterexample :
    sTwoSameMs.history.map Record.id = [5, 5] ∧
    sTwoSameMs.history.map Record.filename = ["b.webm", "a.webm"] ∧
    ¬ sTwoSameMs.history.Pairwise (fun a b => a.id ≠ b.id) := by
  decide

/-- C9 amended: each inserted record's id is exactly the `Date.now()`
reading at its insertion, so PROVIDED the clock readings at successive
insertions are strictly increasing, ids assigned later are strictly
greater than earlier ones, and the records retained in history have
pairwise distinct, strictly decreasing (newest-first) ids. -/
theorem c9_amended (times : List Nat) (hmono : times.Pairwise (· < ·)) :
    (times.map (fun t => (mkHistoryItem t "t" "x" "f" "u").id) = times) ∧
    (runInserts times []).Pairwise (fun a b => b.id < a.id) ∧
    (runInserts times []).Pairwise (fun a b => a.id ≠ b.id) := by
  refine ⟨?_, ?_, ?_⟩
  · simp [mkHistoryItem]
  · exact runInserts_sorted times [] (List.Pairwise.nil) (by simp) hmono
  · exact (runInserts_sorted times [] (List.Pairwise.nil) (by simp) hmono).imp
      (fun hlt => (Nat.ne_of_lt hlt).symm)

/-- Witness for C9 amended at the strictly increasing reading list
`[1, 2, 3]`. -/
theorem c9_witness :
    ([1, 2, 3] : List Nat).Pairwise (· < ·) ∧
    (runInserts [1, 2, 3] []).Pairwise (fun a b => a.id ≠ b.id) :=
  ⟨by decide, (c9_amended [1, 2, 3] (by decide)).2.2⟩

end SpeechApp
